import Mathlib

/-!
Verification of the authentication/authorization and tenant-context core of
the kijko backend against its specification.

Part A models `server/app/services/database.py` (RLS context management):
the Supabase RPC layer is modelled as an oracle `RpcImpl` mapping each RPC
call to either a result or a raised exception, and the Postgres session
variables read by RLS policies are modelled as an explicit `Session` record
updated by successful `set_config` calls.  A trace of issued RPC calls is
carried alongside so call-count properties can be stated.
-/

namespace Kijko

/-- One RPC call to the data store: the RPC function name and, for
`set_config`, the session variable and the value written. -/
structure RpcCall where
  fname : String
  setting : String
  value : String
deriving DecidableEq, Repr

/-- The data-store oracle: each RPC call either returns data or raises. -/
def RpcImpl : Type := RpcCall → Except String (Option String)

/-- The Postgres session variables that the RLS policies read
(`app.current_user_id` and `app.current_org_id`). -/
structure Session where
  current_user_id : String
  current_org_id : String
deriving DecidableEq, Repr

/-- State threaded through the database helpers: the session variables plus
the trace of RPC calls issued so far. -/
structure DbState where
  session : Session
  calls : List RpcCall
deriving DecidableEq, Repr

/-- Effect of a successful `set_config` RPC on the session variables. -/
def Session.applySetConfig (s : Session) (setting value : String) : Session :=
  if setting = "app.current_user_id" then { s with current_user_id := value }
  else if setting = "app.current_org_id" then { s with current_org_id := value }
  else s

/-- Effect of a successful RPC call on the session variables: only
`set_config` touches them. -/
def Session.applyOk (s : Session) (c : RpcCall) : Session :=
  if c.fname = "set_config" then s.applySetConfig c.setting c.value else s

/-- Model of `_execute_rpc` (database.py lines 72-92): runs the RPC and
returns its data, or catches every exception and returns `none`.  The call
is appended to the trace on both paths; the session is updated only when
the RPC succeeded. -/
def _execute_rpc (impl : RpcImpl) (c : RpcCall) (st : DbState) :
    Option (Option String) × DbState :=
  match impl c with
  | Except.ok d => (some d, { session := st.session.applyOk c, calls := st.calls ++ [c] })
  | Except.error _ => (none, { session := st.session, calls := st.calls ++ [c] })

/-- The `set_config` call that writes `app.current_user_id`. -/
def setUserCall (u : String) : RpcCall :=
  { fname := "set_config", setting := "app.current_user_id", value := u }

/-- The `set_config` call that writes `app.current_org_id`. -/
def setOrgCall (o : String) : RpcCall :=
  { fname := "set_config", setting := "app.current_org_id", value := o }

/-- Model of `set_rls_context` (database.py lines 28-53): two `set_config`
RPCs, one per tenant variable. -/
def set_rls_context (impl : RpcImpl) (user_id org_id : String) (st : DbState) : DbState :=
  let st1 := (_execute_rpc impl (setUserCall user_id) st).2
  (_execute_rpc impl (setOrgCall org_id) st1).2

/-- Model of `clear_rls_context` (database.py lines 56-69): two `set_config`
RPCs writing the empty string to each tenant variable. -/
def clear_rls_context (impl : RpcImpl) (st : DbState) : DbState :=
  let st1 := (_execute_rpc impl (setUserCall "") st).2
  (_execute_rpc impl (setOrgCall "") st1).2

/-- Model of `execute_with_rls` (database.py lines 99-123):
`try: set context; return query_fn(client) finally: clear context`.
Since `set_rls_context` and `clear_rls_context` never raise (they swallow
RPC failures), the `finally` clause makes both the value path and the
raising path of `query_fn` pass through `clear_rls_context`; the outcome of
`query_fn` (value or exception) is propagated unchanged. -/
def execute_with_rls {E T : Type} (impl : RpcImpl) (user_id org_id : String)
    (query_fn : Session → Except E T) (st : DbState) : Except E T × DbState :=
  let st1 := set_rls_context impl user_id org_id st
  let r := query_fn st1.session
  (r, clear_rls_context impl st1)

/-- An oracle for which every RPC call succeeds. -/
def okImpl : RpcImpl := fun _ => Except.ok none

/-- An oracle for which every RPC call raises. -/
def failImpl : RpcImpl := fun _ => Except.error "connection refused"

theorem execute_rpc_calls (impl : RpcImpl) (c : RpcCall) (st : DbState) :
    (_execute_rpc impl c st).2.calls = st.calls ++ [c] := by
  unfold _execute_rpc
  cases impl c <;> rfl

theorem execute_rpc_session_ok (impl : RpcImpl) (c : RpcCall) (st : DbState)
    (d : Option String) (h : impl c = Except.ok d) :
    (_execute_rpc impl c st).2.session = st.session.applyOk c := by
  unfold _execute_rpc
  rw [h]

theorem execute_rpc_session_error (impl : RpcImpl) (c : RpcCall) (st : DbState)
    (e : String) (h : impl c = Except.error e) :
    (_execute_rpc impl c st).2.session = st.session := by
  unfold _execute_rpc
  rw [h]

theorem applyOk_setUser (s : Session) (u : String) :
    s.applyOk (setUserCall u) = { s with current_user_id := u } := by
  simp [Session.applyOk, Session.applySetConfig, setUserCall]

theorem applyOk_setOrg (s : Session) (o : String) :
    s.applyOk (setOrgCall o) = { s with current_org_id := o } := by
  simp [Session.applyOk, Session.applySetConfig, setOrgCall]

theorem clear_rls_context_session (impl : RpcImpl) (st : DbState)
    (du : Option String) (hcu : impl (setUserCall "") = Except.ok du)
    (dv : Option String) (hco : impl (setOrgCall "") = Except.ok dv) :
    (clear_rls_context impl st).session = { current_user_id := "", current_org_id := "" } := by
  unfold clear_rls_context
  rw [execute_rpc_session_ok _ _ _ _ hco, execute_rpc_session_ok _ _ _ _ hcu,
    applyOk_setUser, applyOk_setOrg]

theorem set_rls_context_session (impl : RpcImpl) (u o : String) (st : DbState)
    (du : Option String) (hsu : impl (setUserCall u) = Except.ok du)
    (dv : Option String) (hso : impl (setOrgCall o) = Except.ok dv) :
    (set_rls_context impl u o st).session = { current_user_id := u, current_org_id := o } := by
  unfold set_rls_context
  rw [execute_rpc_session_ok _ _ _ _ hso, execute_rpc_session_ok _ _ _ _ hsu,
    applyOk_setUser, applyOk_setOrg]

/-- C1: for every user id, org id and query function, `execute_with_rls`
sets the tenant session variables before invoking the query function and
always clears them afterwards on every exit path: the query function runs
on the session scoped to (u, o), its outcome — returned value or raised
exception — is propagated unchanged, and the final session has both tenant
variables cleared, whether the query function returned or raised.  (The
hypotheses say the data store executed the four `set_config` RPCs without
raising; the RPC layer itself never propagates exceptions, see C2.) -/
theorem execute_with_rls_scoped {E T : Type} (impl : RpcImpl) (u o : String)
    (fn : Session → Except E T) (st : DbState)
    (du : Option String) (hsu : impl (setUserCall u) = Except.ok du)
    (dv : Option String) (hso : impl (setOrgCall o) = Except.ok dv)
    (dw : Option String) (hcu : impl (setUserCall "") = Except.ok dw)
    (dx : Option String) (hco : impl (setOrgCall "") = Except.ok dx) :
    (execute_with_rls impl u o fn st).1 = fn { current_user_id := u, current_org_id := o }
    ∧ (execute_with_rls impl u o fn st).2.session
        = { current_user_id := "", current_org_id := "" } := by
  simp only [execute_with_rls]
  refine ⟨?_, ?_⟩
  · rw [set_rls_context_session impl u o st du hsu dv hso]
  · exact clear_rls_context_session impl _ dw hcu dx hco

/-- Witness for C1 at a concrete input: the query function raises, yet the
exception propagates and the tenant variables end up cleared. -/
theorem execute_with_rls_scoped_witness :
    (execute_with_rls okImpl "u1" "o1"
        (fun _ => (Except.error "boom" : Except String Nat))
        { session := { current_user_id := "x", current_org_id := "y" }, calls := [] }).1
      = Except.error "boom"
    ∧ (execute_with_rls okImpl "u1" "o1"
        (fun _ => (Except.error "boom" : Except String Nat))
        { session := { current_user_id := "x", current_org_id := "y" }, calls := [] }).2.session
      = { current_user_id := "", current_org_id := "" } :=
  execute_with_rls_scoped okImpl "u1" "o1" _ _ none rfl none rfl none rfl none rfl

/-- C2: `set_rls_context` and `clear_rls_context` never raise, because
`_execute_rpc` catches every exception of the underlying RPC and returns
`none` (first conjunct; in this embedding the helpers are total functions
whose result type carries no exception, mirroring the `try/except` that
swallows everything).  Consequently, even when every RPC call fails,
`execute_with_rls` still runs the query function — on the unchanged
session, since setting the scope silently failed — and returns its
outcome. -/
theorem rpc_failures_swallowed {E T : Type} (impl : RpcImpl) (u o : String)
    (fn : Session → Except E T) (st : DbState)
    (hfail : ∀ c, ∃ e, impl c = Except.error e) :
    (∀ c st2, (_execute_rpc impl c st2).1 = none)
    ∧ (set_rls_context impl u o st).session = st.session
    ∧ (execute_with_rls impl u o fn st).1 = fn st.session := by
  have hnone : ∀ c st2, (_execute_rpc impl c st2).1 = none := by
    intro c st2
    obtain ⟨e, he⟩ := hfail c
    unfold _execute_rpc
    rw [he]
  have hsession : (set_rls_context impl u o st).session = st.session := by
    obtain ⟨e1, he1⟩ := hfail (setUserCall u)
    obtain ⟨e2, he2⟩ := hfail (setOrgCall o)
    unfold set_rls_context
    rw [execute_rpc_session_error _ _ _ _ he2, execute_rpc_session_error _ _ _ _ he1]
  refine ⟨hnone, hsession, ?_⟩
  simp only [execute_with_rls]
  rw [hsession]

/-- Witness for C2 at a concrete input: with an oracle that always raises,
the query function still runs on the unchanged session. -/
theorem rpc_failures_swallowed_witness :
    (∀ c st2, (_execute_rpc failImpl c st2).1 = none)
    ∧ (set_rls_context failImpl "u1" "o1"
        { session := { current_user_id := "a", current_org_id := "b" }, calls := [] }).session
      = { current_user_id := "a", current_org_id := "b" }
    ∧ (execute_with_rls failImpl "u1" "o1"
        (fun s => (Except.ok s.current_user_id : Except String String))
        { session := { current_user_id := "a", current_org_id := "b" }, calls := [] }).1
      = Except.ok "a" :=
  rpc_failures_swallowed failImpl "u1" "o1" _ _
    (fun _ => ⟨"connection refused", rfl⟩)

/-- C10 (amended): per scoped request the core issues exactly four
`set_config` calls to the data store — each of the two tenant session
variables is set once at request start and cleared (written to the empty
string) once at request end, in the order set-user, set-org, clear-user,
clear-org. -/
theorem execute_with_rls_call_trace {E T : Type} (impl : RpcImpl) (u o : String)
    (fn : Session → Except E T) (st : DbState) :
    (execute_with_rls impl u o fn st).2.calls
      = st.calls ++ [setUserCall u, setOrgCall o, setUserCall "", setOrgCall ""] := by
  simp only [execute_with_rls]
  unfold clear_rls_context set_rls_context
  rw [execute_rpc_calls, execute_rpc_calls, execute_rpc_calls, execute_rpc_calls]
  simp

/-- Counterexample to C10 as stated: on a concrete scoped request the trace
contains four calls to the `set_config` primitive, not two — the primitive
sets a single session variable per call, so setting and clearing the pair
(user id, org id) takes two calls each. -/
theorem execute_with_rls_two_calls_counterexample :
    ((execute_with_rls okImpl "u1" "o1"
        (fun _ => (Except.ok 0 : Except String Nat))
        { session := { current_user_id := "", current_org_id := "" },
          calls := [] }).2.calls.countP
      (fun c => c.fname == "set_config")) ≠ 2 := by decide

/-!
Part B models the authentication core (`server/app/services/keycloak.py`
and `server/app/middleware/auth.py`).  These two modules are code of this
repository that is not present under `src/` — only their tests
(`tests/test_keycloak.py`, `tests/test_security.py`) and their callers are
— so the definitions below are modelled from the specification, checked
against the behaviour the tests pin down.  Raw token payloads and extracted
claims are both Python dicts in the original; they are modelled as
association lists over a small value type.
-/

/-- A JSON-ish claim value as it occurs in a Keycloak token payload: a
string, a boolean, a role-list object (the shape of `realm_access`), or a
client-to-role-list map (the shape of `resource_access`). -/
inductive Val where
  | vs (v : String)
  | vb (v : Bool)
  | vroles (v : List String)
  | vaccess (v : List (String × List String))
deriving DecidableEq, Repr

/-- A claim dictionary: both the raw token payload and the extracted
claims returned by the service have this shape. -/
def Payload : Type := List (String × Val)

instance : DecidableEq Payload := by
  unfold Payload
  infer_instance

/-- `payload.get(key, "")` for a string-valued claim. -/
def getStr (p : Payload) (k : String) : String :=
  match p.lookup k with
  | some (Val.vs v) => v
  | _ => ""

/-- `payload.get(key, False)` for a boolean-valued claim. -/
def getBool (p : Payload) (k : String) : Bool :=
  match p.lookup k with
  | some (Val.vb v) => v
  | _ => false

/-- Modelled from the spec: the nested realm-level role list,
`payload.get("realm_access", {}).get("roles", [])`. -/
def realmRoles (p : Payload) : List String :=
  match p.lookup "realm_access" with
  | some (Val.vroles v) => v
  | _ => []

/-- Modelled from the spec: the nested client-level role list scoped to
this application, `payload.get("resource_access", {}).get(client_id,
{}).get("roles", [])`. -/
def clientRoles (client_id : String) (p : Payload) : List String :=
  match p.lookup "resource_access" with
  | some (Val.vaccess m) =>
    match m.lookup client_id with
    | some v => v
    | none => []
  | _ => []

/-- Modelled from the spec: the fixed set of provider-internal role names
removed from the extracted role set — `offline_access`,
`uma_authorization` and the `default-roles-*` family. -/
def isInternalRole (r : String) : Bool :=
  r == "offline_access" || r == "uma_authorization" || r.startsWith "default-roles-"

/-- Modelled from the spec: the organization id claim — the primary claim
name `org_id` first, else the secondary alternate claim name
`organization_id`, else the empty string. -/
def orgIdOf (p : Payload) : String :=
  match p.lookup "org_id" with
  | some (Val.vs v) => v
  | _ =>
    match p.lookup "organization_id" with
    | some (Val.vs v) => v
    | _ => ""

/-- Modelled from the spec: the deduplicated union of realm-level and
client-level roles with provider-internal role names removed
(merge, deduplicate, then filter). -/
def mergedRoles (client_id : String) (p : Payload) : List String :=
  ((realmRoles p ++ clientRoles client_id p).dedup).filter (fun r => !isInternalRole r)

/-- Modelled from the spec: `_extract_claims` of the missing
`services/keycloak.py` — the Claims Normalizer.  A pure total function
from a raw token payload to the extracted claims dict: identity fields are
mapped directly with empty/false defaults (`given_name` to `first_name`,
`family_name` to `last_name`), the organization id falls back from
`org_id` to `organization_id`, and the role set is the merged,
deduplicated, internal-role-filtered union of realm and client roles. -/
def _extract_claims (client_id : String) (p : Payload) : Payload :=
  [("sub", Val.vs (getStr p "sub")),
   ("email", Val.vs (getStr p "email")),
   ("email_verified", Val.vb (getBool p "email_verified")),
   ("first_name", Val.vs (getStr p "given_name")),
   ("last_name", Val.vs (getStr p "family_name")),
   ("org_id", Val.vs (orgIdOf p)),
   ("roles", Val.vroles (mergedRoles client_id p)),
   ("preferred_username", Val.vs (getStr p "preferred_username"))]

/-- The role list of an extracted claims dict. -/
def rolesOf (p : Payload) : List String :=
  match p.lookup "roles" with
  | some (Val.vroles v) => v
  | _ => []

/-- A JWKS document, identified for this model by its list of key ids. -/
structure Jwks where
  keys : List String
deriving DecidableEq, Repr

/-- Modelled from the spec: the JWKS Cache state of the missing
`services/keycloak.py` — `keys | null` plus the fetch timestamp
(`_jwks` and `_jwks_fetched_at` in the tests). -/
structure JwksCache where
  cached : Option Jwks
  fetchedAt : Nat
deriving DecidableEq, Repr

/-- A FastAPI `HTTPException` as raised by the authentication core. -/
structure HttpException where
  status_code : Nat
  detail : String
  headers : List (String × String)
deriving DecidableEq, Repr

/-- Modelled from the spec: the JWKS cache TTL, a fixed configuration
constant on the order of minutes (`JWKS_CACHE_TTL` in the tests; the
theorems quantify over the TTL, this constant is used in witnesses). -/
def JWKS_CACHE_TTL : Nat := 300

/-- Outcome of one network fetch of the JWKS document: the fetched key set
or a raised HTTP/network error. -/
def FetchResult : Type := Except String Jwks

/-- The `WWW-Authenticate` challenge header attached to credential
rejections. -/
def challengeHeaders : List (String × String) := [("WWW-Authenticate", "Bearer")]

/-- The service-unavailable error raised when no keys can be obtained. -/
def keysUnavailableExc : HttpException :=
  { status_code := 503, detail := "Authentication service unavailable", headers := [] }

/-- The unauthorized error raised when token verification fails. -/
def unauthorizedExc : HttpException :=
  { status_code := 401, detail := "Invalid or expired token",
    headers := challengeHeaders }

/-- Result of a `get_jwks` call: the returned (or raised) key set, the
cache state afterwards, and how many network fetches were performed. -/
structure JwksOut where
  result : Except HttpException Jwks
  cache : JwksCache
  fetches : Nat
deriving Repr

/-- Modelled from the spec: the fetch-and-fallback arm of `get_jwks` —
attempt one network fetch; on success replace the cache and return the new
set; on failure return the cached set even if expired (stale-on-error),
or raise a 503 "keys unavailable" error when no cached set exists. -/
def fetchJwks (fetch : FetchResult) (now : Nat) (st : JwksCache) : JwksOut :=
  match fetch with
  | Except.ok ks => { result := Except.ok ks, cache := { cached := some ks, fetchedAt := now }, fetches := 1 }
  | Except.error _ =>
    match st.cached with
    | some stale => { result := Except.ok stale, cache := st, fetches := 1 }
    | none => { result := Except.error keysUnavailableExc, cache := st, fetches := 1 }

/-- Modelled from the spec: `get_jwks` of the missing
`services/keycloak.py` — the JWKS Cache.  If `force_refresh` is false, a
cached set exists and `now - fetchedAt < ttl`, return the cached set with
no network call; otherwise attempt one fetch with stale-on-error
fallback. -/
def get_jwks (fetch : FetchResult) (ttl now : Nat) (force_refresh : Bool)
    (st : JwksCache) : JwksOut :=
  match st.cached, force_refresh with
  | some ks, false =>
    if now - st.fetchedAt < ttl then { result := Except.ok ks, cache := st, fetches := 0 }
    else fetchJwks fetch now st
  | _, _ => fetchJwks fetch now st

/-- Classification of a failed token decode. -/
inductive DecodeError where
  | expired
  | malformed
  | keyMismatch
deriving DecidableEq, Repr

/-- Modelled from the spec: a decode failure is retryable against freshly
fetched keys only when it is a cryptographic/key-mismatch failure — never
when the token is expired or malformed. -/
def retryableDecodeError : DecodeError → Bool
  | DecodeError.keyMismatch => true
  | DecodeError.expired => false
  | DecodeError.malformed => false

/-- Result of a `validate_token` call: the extracted claims (or the raised
HTTP error), the cache state afterwards, the number of network fetches
performed, and the number of decode (verification) attempts made. -/
structure ValidateOut where
  result : Except HttpException Payload
  cache : JwksCache
  fetches : Nat
  attempts : Nat

/-- Modelled from the spec: `validate_token` of the missing
`services/keycloak.py` — the Token Verifier.  `decode` stands for the
underlying JWT decode of one fixed token against a given key set
(signature + standard claim checks).  Fetch current keys without forcing;
attempt verification; on a retryable (key-mismatch) failure refetch with
`force_refresh` and retry exactly once; on expiry/malformed failure, or
when the retry also fails, raise 401 with a challenge header.  Per the
tests, the claims returned on success are the extracted claims of the
decoded payload. -/
def validate_token (client_id : String) (decode : Jwks → Except DecodeError Payload)
    (fetch : FetchResult) (ttl now : Nat) (st : JwksCache) : ValidateOut :=
  let g1 := get_jwks fetch ttl now false st
  match g1.result with
  | Except.error e => { result := Except.error e, cache := g1.cache, fetches := g1.fetches, attempts := 0 }
  | Except.ok ks =>
    match decode ks with
    | Except.ok payload =>
      { result := Except.ok (_extract_claims client_id payload),
        cache := g1.cache, fetches := g1.fetches, attempts := 1 }
    | Except.error de =>
      if retryableDecodeError de then
        let g2 := get_jwks fetch ttl now true g1.cache
        match g2.result with
        | Except.error e =>
          { result := Except.error e, cache := g2.cache,
            fetches := g1.fetches + g2.fetches, attempts := 1 }
        | Except.ok ks2 =>
          match decode ks2 with
          | Except.ok payload =>
            { result := Except.ok (_extract_claims client_id payload),
              cache := g2.cache, fetches := g1.fetches + g2.fetches, attempts := 2 }
          | Except.error _ =>
            { result := Except.error unauthorizedExc, cache := g2.cache,
              fetches := g1.fetches + g2.fetches, attempts := 2 }
      else
        { result := Except.error unauthorizedExc, cache := g1.cache,
          fetches := g1.fetches, attempts := 1 }

/-- The detail message of the forbidden error for a missing organization
binding (the tests require the word organization to occur in it). -/
def missingOrgDetail : String := "User is not assigned to an organization"

/-- Modelled from the spec: `require_auth` of the missing
`middleware/auth.py` — the Auth Gate.  The bearer credential of the
request is `none` when the `Authorization` header is missing or not a
bearer header; `validate` stands for `validate_token` on the supplied
token.  Missing credential: 401 with a `WWW-Authenticate` challenge.
Rejected credential: the verifier error (401 with challenge) propagates.
Valid credential with an empty organization id: 403 with a message
identifying the missing-organization condition. -/
def require_auth (validate : String → Except HttpException Payload) :
    Option String → Except HttpException Payload
  | none =>
    Except.error { status_code := 401, detail := "Not authenticated",
                   headers := challengeHeaders }
  | some token =>
    match validate token with
    | Except.error e => Except.error e
    | Except.ok claims =>
      if getStr claims "org_id" = "" then
        Except.error { status_code := 403, detail := missingOrgDetail, headers := [] }
      else Except.ok claims

theorem rolesOf_extract (cid : String) (p : Payload) :
    rolesOf (_extract_claims cid p) = mergedRoles cid p := rfl

theorem getStr_extract_sub (cid : String) (p : Payload) :
    getStr (_extract_claims cid p) "sub" = getStr p "sub" := rfl

theorem getStr_extract_email (cid : String) (p : Payload) :
    getStr (_extract_claims cid p) "email" = getStr p "email" := rfl

theorem getBool_extract_email_verified (cid : String) (p : Payload) :
    getBool (_extract_claims cid p) "email_verified" = getBool p "email_verified" := rfl

theorem getStr_extract_first_name (cid : String) (p : Payload) :
    getStr (_extract_claims cid p) "first_name" = getStr p "given_name" := rfl

theorem getStr_extract_last_name (cid : String) (p : Payload) :
    getStr (_extract_claims cid p) "last_name" = getStr p "family_name" := rfl

theorem getStr_extract_org_id (cid : String) (p : Payload) :
    getStr (_extract_claims cid p) "org_id" = orgIdOf p := rfl

theorem getStr_extract_preferred_username (cid : String) (p : Payload) :
    getStr (_extract_claims cid p) "preferred_username" = getStr p "preferred_username" := rfl

/-- C6: for every raw claim payload, the extracted role set is exactly the
union of the realm-level role list and the client-level role list scoped to
this application, deduplicated, minus the fixed internal role names: a role
is in the output iff it is in one of the two lists and is not internal,
every role appears at most once, an internal role never appears, and a role
present in both lists (and not internal) appears exactly once. -/
theorem extract_claims_roles_spec (client_id : String) (p : Payload) (r : String) :
    (r ∈ rolesOf (_extract_claims client_id p)
      ↔ ((r ∈ realmRoles p ∨ r ∈ clientRoles client_id p) ∧ isInternalRole r = false))
    ∧ (rolesOf (_extract_claims client_id p)).count r ≤ 1
    ∧ (isInternalRole r = true → r ∉ rolesOf (_extract_claims client_id p))
    ∧ (r ∈ realmRoles p → r ∈ clientRoles client_id p → isInternalRole r = false →
        (rolesOf (_extract_claims client_id p)).count r = 1) := by
  rw [rolesOf_extract]
  have hnodup : (mergedRoles client_id p).Nodup := by
    unfold mergedRoles
    exact (List.nodup_dedup _).filter _
  have hmem : ∀ s, s ∈ mergedRoles client_id p ↔
      ((s ∈ realmRoles p ∨ s ∈ clientRoles client_id p) ∧ isInternalRole s = false) := by
    intro s
    unfold mergedRoles
    simp [List.mem_filter, List.mem_dedup, List.mem_append, Bool.not_eq_true']
  have hcount : (mergedRoles client_id p).count r ≤ 1 :=
    List.nodup_iff_count_le_one.mp hnodup r
  refine ⟨hmem r, hcount, ?_, ?_⟩
  · intro hint hmem2
    have hboth := (hmem r).mp hmem2
    rw [hint] at hboth
    exact absurd hboth.2 (by simp)
  · intro h1 _ h3
    have hm : r ∈ mergedRoles client_id p := (hmem r).mpr ⟨Or.inl h1, h3⟩
    have hpos : 0 < (mergedRoles client_id p).count r := List.count_pos_iff.mpr hm
    omega

/-- Witness for C6 at the concrete payload of the tests: realm roles
role-a, role-b and client roles role-c, role-b merge to a set in which
role-b appears exactly once, and the internal role offline_access is
absent. -/
theorem extract_claims_roles_spec_witness :
    ("role-b" ∈ rolesOf (_extract_claims "kijko-backend"
        [("sub", Val.vs "user-1"),
         ("realm_access", Val.vroles ["role-a", "role-b", "offline_access"]),
         ("resource_access", Val.vaccess [("kijko-backend", ["role-c", "role-b"])])])
      ↔ (("role-b" ∈ realmRoles
            [("sub", Val.vs "user-1"),
             ("realm_access", Val.vroles ["role-a", "role-b", "offline_access"]),
             ("resource_access", Val.vaccess [("kijko-backend", ["role-c", "role-b"])])]
          ∨ "role-b" ∈ clientRoles "kijko-backend"
            [("sub", Val.vs "user-1"),
             ("realm_access", Val.vroles ["role-a", "role-b", "offline_access"]),
             ("resource_access", Val.vaccess [("kijko-backend", ["role-c", "role-b"])])])
         ∧ isInternalRole "role-b" = false))
    ∧ (rolesOf (_extract_claims "kijko-backend"
        [("sub", Val.vs "user-1"),
         ("realm_access", Val.vroles ["role-a", "role-b", "offline_access"]),
         ("resource_access", Val.vaccess [("kijko-backend", ["role-c", "role-b"])])])).count "role-b" ≤ 1 := by
  have h := extract_claims_roles_spec "kijko-backend"
    [("sub", Val.vs "user-1"),
     ("realm_access", Val.vroles ["role-a", "role-b", "offline_access"]),
     ("resource_access", Val.vaccess [("kijko-backend", ["role-c", "role-b"])])] "role-b"
  exact ⟨h.1, h.2.1⟩

/-- C9: the Claims Normalizer is a pure total function (it is a Lean
function into `Payload`, with no error component): missing optional fields
default to the empty string (email, first name, last name, org id), false
(email_verified) or the empty list (roles), and the organization id is
taken from the primary claim name org_id first, else the alternate claim
name organization_id, else the empty string. -/
theorem extract_claims_total_defaults (cid : String) (p : Payload) :
    (p.lookup "email" = none → getStr (_extract_claims cid p) "email" = "")
    ∧ (p.lookup "email_verified" = none → getBool (_extract_claims cid p) "email_verified" = false)
    ∧ (p.lookup "given_name" = none → getStr (_extract_claims cid p) "first_name" = "")
    ∧ (p.lookup "family_name" = none → getStr (_extract_claims cid p) "last_name" = "")
    ∧ (p.lookup "realm_access" = none → p.lookup "resource_access" = none →
        rolesOf (_extract_claims cid p) = [])
    ∧ (∀ v, p.lookup "org_id" = some (Val.vs v) → getStr (_extract_claims cid p) "org_id" = v)
    ∧ (∀ w, p.lookup "org_id" = none → p.lookup "organization_id" = some (Val.vs w) →
        getStr (_extract_claims cid p) "org_id" = w)
    ∧ (p.lookup "org_id" = none → p.lookup "organization_id" = none →
        getStr (_extract_claims cid p) "org_id" = "") := by
  refine ⟨?_, ?_, ?_, ?_, ?_, ?_, ?_, ?_⟩
  · intro h
    rw [getStr_extract_email]
    unfold getStr
    rw [h]
  · intro h
    rw [getBool_extract_email_verified]
    unfold getBool
    rw [h]
  · intro h
    rw [getStr_extract_first_name]
    unfold getStr
    rw [h]
  · intro h
    rw [getStr_extract_last_name]
    unfold getStr
    rw [h]
  · intro h1 h2
    rw [rolesOf_extract]
    unfold mergedRoles realmRoles clientRoles
    rw [h1, h2]
    rfl
  · intro v h
    rw [getStr_extract_org_id]
    unfold orgIdOf
    rw [h]
  · intro w h1 h2
    rw [getStr_extract_org_id]
    unfold orgIdOf
    rw [h1, h2]
  · intro h1 h2
    rw [getStr_extract_org_id]
    unfold orgIdOf
    rw [h1, h2]

/-- Witness for C9 at the concrete payloads of the tests: a payload with
only a subject defaults every optional field, and a payload carrying only
the alternate organization claim falls back to it. -/
theorem extract_claims_total_defaults_witness :
    getStr (_extract_claims "kijko-backend" [("sub", Val.vs "user-1")]) "email" = ""
    ∧ getBool (_extract_claims "kijko-backend" [("sub", Val.vs "user-1")]) "email_verified" = false
    ∧ rolesOf (_extract_claims "kijko-backend" [("sub", Val.vs "user-1")]) = []
    ∧ getStr (_extract_claims "kijko-backend" [("sub", Val.vs "user-1")]) "org_id" = ""
    ∧ getStr (_extract_claims "kijko-backend"
        [("sub", Val.vs "user-1"), ("organization_id", Val.vs "org-from-alt-field")])
        "org_id" = "org-from-alt-field" := by
  have h1 := extract_claims_total_defaults "kijko-backend" [("sub", Val.vs "user-1")]
  have h2 := extract_claims_total_defaults "kijko-backend"
    [("sub", Val.vs "user-1"), ("organization_id", Val.vs "org-from-alt-field")]
  exact ⟨h1.1 rfl, h1.2.1 rfl, h1.2.2.2.2.1 rfl rfl, h1.2.2.2.2.2.2.2 rfl rfl,
    h2.2.2.2.2.2.2.1 "org-from-alt-field" rfl rfl⟩

/-- The raw token payload used as a fixture by the tests. -/
def samplePayload : Payload :=
  [("sub", Val.vs "user-uuid-123"),
   ("email", Val.vs "test@kijko.nl"),
   ("email_verified", Val.vb true),
   ("given_name", Val.vs "Test"),
   ("family_name", Val.vs "User"),
   ("preferred_username", Val.vs "testuser"),
   ("org_id", Val.vs "org-uuid-456"),
   ("realm_access", Val.vroles ["admin", "offline_access", "uma_authorization", "default-roles-kijko"]),
   ("resource_access", Val.vaccess [("kijko-backend", ["developer"])])]

/-- The JWKS fixture of the tests, reduced to its key id. -/
def sampleJwks : Jwks := { keys := ["test-key-id"] }

/-- A decode oracle for a token signed with a rotated key: verification
fails with a key mismatch against any key set not containing the new key
id, and succeeds once the refreshed set holds it. -/
def rotatedDecode : Jwks → Except DecodeError Payload := fun ks =>
  if ks.keys.contains "kid-new" then Except.ok samplePayload
  else Except.error DecodeError.keyMismatch

/-- C8: with no cached key set, the first `get_jwks` call (not forced)
performs one network fetch, returns the fetched set and caches it with the
fetch time; any later non-forced call while `now - fetchedAt < TTL`
performs no network call and returns the cached set — so two calls within
one TTL window perform exactly one fetch. -/
theorem get_jwks_single_fetch_within_ttl (ks : Jwks) (ttl t0 t1 : Nat)
    (fetch2 : FetchResult) (h : t1 - t0 < ttl) :
    (get_jwks (Except.ok ks) ttl t0 false { cached := none, fetchedAt := 0 }).fetches = 1
    ∧ (get_jwks (Except.ok ks) ttl t0 false { cached := none, fetchedAt := 0 }).result
        = Except.ok ks
    ∧ (get_jwks (Except.ok ks) ttl t0 false { cached := none, fetchedAt := 0 }).cache
        = { cached := some ks, fetchedAt := t0 }
    ∧ (get_jwks fetch2 ttl t1 false
        (get_jwks (Except.ok ks) ttl t0 false { cached := none, fetchedAt := 0 }).cache).fetches = 0
    ∧ (get_jwks fetch2 ttl t1 false
        (get_jwks (Except.ok ks) ttl t0 false { cached := none, fetchedAt := 0 }).cache).result
        = Except.ok ks := by
  have hfirst : get_jwks (Except.ok ks) ttl t0 false { cached := none, fetchedAt := 0 }
      = { result := Except.ok ks, cache := { cached := some ks, fetchedAt := t0 },
          fetches := 1 } := rfl
  rw [hfirst]
  refine ⟨rfl, rfl, rfl, ?_, ?_⟩
  · simp [get_jwks, h]
  · simp [get_jwks, h]

/-- Witness for C8 at a concrete input: first call fetches once, a second
call ten seconds later performs no fetch even though the network is now
failing. -/
theorem get_jwks_single_fetch_witness :
    (get_jwks (Except.ok { keys := ["kid1"] }) JWKS_CACHE_TTL 0 false
        { cached := none, fetchedAt := 0 }).fetches = 1
    ∧ (get_jwks (Except.error "timeout") JWKS_CACHE_TTL 10 false
        (get_jwks (Except.ok { keys := ["kid1"] }) JWKS_CACHE_TTL 0 false
          { cached := none, fetchedAt := 0 }).cache).fetches = 0 := by
  have h := get_jwks_single_fetch_within_ttl { keys := ["kid1"] } JWKS_CACHE_TTL 0 10
    (Except.error "timeout") (by decide)
  exact ⟨h.1, h.2.2.2.1⟩

/-- C4: for every `get_jwks` call made while the network fetch fails, if a
cached set exists — even one past its TTL — that set is returned and no
error is raised; if no cached set exists the call raises the 503 "keys
unavailable" error, never a silent empty key set. -/
theorem get_jwks_stale_or_unavailable (err : String) (ttl now : Nat) (force : Bool)
    (st : JwksCache) :
    (∀ ks, st.cached = some ks →
        (get_jwks (Except.error err) ttl now force st).result = Except.ok ks)
    ∧ (st.cached = none →
        (get_jwks (Except.error err) ttl now force st).result
          = Except.error keysUnavailableExc
        ∧ keysUnavailableExc.status_code = 503) := by
  constructor
  · intro ks hks
    cases force
    · unfold get_jwks
      rw [hks]
      by_cases httl : now - st.fetchedAt < ttl
      · simp [httl]
      · simp [httl, fetchJwks, hks]
    · unfold get_jwks
      rw [hks]
      simp [fetchJwks, hks]
  · intro hnone
    refine ⟨?_, rfl⟩
    cases force
    · unfold get_jwks
      rw [hnone]
      simp [fetchJwks, hnone]
    · unfold get_jwks
      rw [hnone]
      simp [fetchJwks, hnone]

/-- Witness for C4 at concrete inputs: the network fails; with an expired
cached set the stale set is returned, with no cache the 503 error is
raised. -/
theorem get_jwks_stale_or_unavailable_witness :
    (get_jwks (Except.error "timeout") JWKS_CACHE_TTL 1000 false
        { cached := some { keys := ["kid1"] }, fetchedAt := 0 }).result
      = Except.ok { keys := ["kid1"] }
    ∧ (get_jwks (Except.error "timeout") JWKS_CACHE_TTL 1000 false
        { cached := none, fetchedAt := 0 }).result = Except.error keysUnavailableExc := by
  have h1 := get_jwks_stale_or_unavailable "timeout" JWKS_CACHE_TTL 1000 false
    { cached := some { keys := ["kid1"] }, fetchedAt := 0 }
  have h2 := get_jwks_stale_or_unavailable "timeout" JWKS_CACHE_TTL 1000 false
    { cached := none, fetchedAt := 0 }
  exact ⟨h1.1 _ rfl, (h2.2 rfl).1⟩

/-- C3: for every token (here: every decode oracle), starting from a fresh
cache, verification is attempted at most twice; a key-mismatch failure on
the cached keys triggers exactly one forced key refetch (one network fetch
despite the fresh cache) and exactly one retry; and an expired or malformed
token fails 401 Unauthorized with no key refresh attempted and no retry. -/
theorem validate_token_retry_policy (cid : String)
    (decode : Jwks → Except DecodeError Payload) (fetch : FetchResult)
    (ttl t0 now : Nat) (ks : Jwks) (hfresh : now - t0 < ttl) :
    (validate_token cid decode fetch ttl now { cached := some ks, fetchedAt := t0 }).attempts ≤ 2
    ∧ (decode ks = Except.error DecodeError.keyMismatch →
        (validate_token cid decode fetch ttl now { cached := some ks, fetchedAt := t0 }).fetches = 1
        ∧ (validate_token cid decode fetch ttl now { cached := some ks, fetchedAt := t0 }).attempts = 2)
    ∧ (decode ks = Except.error DecodeError.expired →
        (validate_token cid decode fetch ttl now { cached := some ks, fetchedAt := t0 }).result
          = Except.error unauthorizedExc
        ∧ (validate_token cid decode fetch ttl now { cached := some ks, fetchedAt := t0 }).fetches = 0
        ∧ (validate_token cid decode fetch ttl now { cached := some ks, fetchedAt := t0 }).attempts = 1)
    ∧ (decode ks = Except.error DecodeError.malformed →
        (validate_token cid decode fetch ttl now { cached := some ks, fetchedAt := t0 }).result
          = Except.error unauthorizedExc
        ∧ (validate_token cid decode fetch ttl now { cached := some ks, fetchedAt := t0 }).fetches = 0
        ∧ (validate_token cid decode fetch ttl now { cached := some ks, fetchedAt := t0 }).attempts = 1) := by
  rcases hdec : decode ks with de | payload
  · cases de
    · simp [validate_token, get_jwks, hfresh, hdec, retryableDecodeError]
    · simp [validate_token, get_jwks, hfresh, hdec, retryableDecodeError]
    · rcases hf : fetch with e | ks2
      · simp [validate_token, get_jwks, fetchJwks, hfresh, hdec, hf, retryableDecodeError]
      · rcases hdec2 : decode ks2 with e2 | p2
        · simp [validate_token, get_jwks, fetchJwks, hfresh, hdec, hf, hdec2,
            retryableDecodeError]
        · simp [validate_token, get_jwks, fetchJwks, hfresh, hdec, hf, hdec2,
            retryableDecodeError]
  · simp [validate_token, get_jwks, hfresh, hdec]

/-- Witness for C3 at a concrete input: a token signed with a rotated key
fails against the cached key set, triggers one forced refetch, and the
single retry is the second and last verification attempt. -/
theorem validate_token_retry_policy_witness :
    (validate_token "kijko-backend" rotatedDecode (Except.ok { keys := ["kid-new"] })
        JWKS_CACHE_TTL 10 { cached := some { keys := ["kid-old"] }, fetchedAt := 0 }).fetches = 1
    ∧ (validate_token "kijko-backend" rotatedDecode (Except.ok { keys := ["kid-new"] })
        JWKS_CACHE_TTL 10 { cached := some { keys := ["kid-old"] }, fetchedAt := 0 }).attempts = 2 :=
  (validate_token_retry_policy "kijko-backend" rotatedDecode
    (Except.ok { keys := ["kid-new"] }) JWKS_CACHE_TTL 0 10 { keys := ["kid-old"] }
    (by decide)).2.1 rfl

/-- Counterexample to C5 as stated: at a concrete token whose signing key
is in the current key set and whose payload carries valid claims,
`validate_token` succeeds but does not return the original claim set
unchanged — the returned claims are the extracted ones (internal roles
filtered, realm and client role lists merged into a flat role list, the
name claims remapped), which differ from the raw payload. -/
theorem validate_token_unchanged_counterexample :
    (validate_token "kijko-backend" (fun _ => Except.ok samplePayload)
        (Except.ok sampleJwks) JWKS_CACHE_TTL 10
        { cached := some sampleJwks, fetchedAt := 0 }).result
      ≠ Except.ok samplePayload := by
  have hval : (validate_token "kijko-backend" (fun _ => Except.ok samplePayload)
      (Except.ok sampleJwks) JWKS_CACHE_TTL 10
      { cached := some sampleJwks, fetchedAt := 0 }).result
      = Except.ok (_extract_claims "kijko-backend" samplePayload) := rfl
  rw [hval]
  intro h
  have hne : _extract_claims "kijko-backend" samplePayload ≠ samplePayload := by decide
  exact hne (Except.ok.inj h)

/-- C5 (amended): for every token signed by a key present in the current
key set and carrying valid claims (decode succeeds against the cached
keys), `validate_token` succeeds on the first attempt and returns the
claim set extracted from the original payload, in which the subject,
email and organization id values are carried over from the original
payload unchanged. -/
theorem validate_token_success_extracted (cid : String)
    (decode : Jwks → Except DecodeError Payload) (fetch : FetchResult)
    (ttl t0 now : Nat) (ks : Jwks) (payload : Payload)
    (hfresh : now - t0 < ttl) (hdec : decode ks = Except.ok payload) :
    (validate_token cid decode fetch ttl now { cached := some ks, fetchedAt := t0 }).result
      = Except.ok (_extract_claims cid payload)
    ∧ (validate_token cid decode fetch ttl now { cached := some ks, fetchedAt := t0 }).attempts = 1
    ∧ getStr (_extract_claims cid payload) "sub" = getStr payload "sub"
    ∧ getStr (_extract_claims cid payload) "email" = getStr payload "email"
    ∧ getStr (_extract_claims cid payload) "org_id" = orgIdOf payload := by
  refine ⟨?_, ?_, rfl, rfl, rfl⟩
  · simp [validate_token, get_jwks, hfresh, hdec]
  · simp [validate_token, get_jwks, hfresh, hdec]

/-- Witness for C5 at the concrete fixture payload of the tests. -/
theorem validate_token_success_extracted_witness :
    (validate_token "kijko-backend" (fun _ => Except.ok samplePayload)
        (Except.ok sampleJwks) JWKS_CACHE_TTL 10
        { cached := some sampleJwks, fetchedAt := 0 }).result
      = Except.ok (_extract_claims "kijko-backend" samplePayload)
    ∧ getStr (_extract_claims "kijko-backend" samplePayload) "sub"
      = getStr samplePayload "sub" := by
  have h := validate_token_success_extracted "kijko-backend"
    (fun _ => Except.ok samplePayload) (Except.ok sampleJwks)
    JWKS_CACHE_TTL 0 10 sampleJwks samplePayload (by decide) rfl
  exact ⟨h.1, h.2.2.1⟩

/-- C7: the Auth Gate answers a missing bearer credential with 401 and the
WWW-Authenticate challenge header; a rejected credential propagates the
verifier error, which is the 401 unauthorized error carrying the
challenge header; and a valid credential whose resulting identity has an
empty organization id is answered 403 with a detail message naming the
missing-organization condition (the word organization occurs in it) — the
two failure classes carry distinct status codes. -/
theorem require_auth_status_classes (validate : String → Except HttpException Payload)
    (tok : String) :
    (require_auth validate none
      = Except.error { status_code := 401, detail := "Not authenticated",
                       headers := challengeHeaders })
    ∧ (∀ e, validate tok = Except.error e →
        require_auth validate (some tok) = Except.error e)
    ∧ (validate tok = Except.error unauthorizedExc →
        require_auth validate (some tok) = Except.error unauthorizedExc
        ∧ unauthorizedExc.status_code = 401
        ∧ ("WWW-Authenticate", "Bearer") ∈ unauthorizedExc.headers)
    ∧ (∀ claims, validate tok = Except.ok claims → getStr claims "org_id" = "" →
        require_auth validate (some tok)
          = Except.error { status_code := 403, detail := missingOrgDetail, headers := [] })
    ∧ List.IsInfix "organization".data missingOrgDetail.data := by
  have hprop : ∀ e, validate tok = Except.error e →
      require_auth validate (some tok) = Except.error e := by
    intro e he
    simp [require_auth, he]
  refine ⟨rfl, hprop, ?_, ?_, ⟨"User is not assigned to an ".data, [], by decide⟩⟩
  · intro he
    exact ⟨hprop _ he, rfl, by simp [unauthorizedExc, challengeHeaders]⟩
  · intro claims hc h0
    simp [require_auth, hc, h0]

/-- Witness for C7 at concrete inputs: a valid credential whose claims
carry no organization id is answered 403, and a missing credential is
answered 401 with the challenge header. -/
theorem require_auth_status_classes_witness :
    require_auth
        (fun _ => Except.ok (_extract_claims "kijko-backend" [("sub", Val.vs "user-123")]))
        (some "test-token")
      = Except.error { status_code := 403, detail := missingOrgDetail, headers := [] }
    ∧ require_auth
        (fun _ => Except.ok (_extract_claims "kijko-backend" [("sub", Val.vs "user-123")]))
        none
      = Except.error { status_code := 401, detail := "Not authenticated",
                       headers := challengeHeaders } := by
  have h := require_auth_status_classes
    (fun _ => Except.ok (_extract_claims "kijko-backend" [("sub", Val.vs "user-123")]))
    "test-token"
  exact ⟨h.2.2.2.1 _ rfl rfl, h.1⟩

end Kijko
